import Mathlib

/-!
Verification of the conversation state machine and turn-management logic of
the Pandora legacy chat bot (src/pandora/bots/legacy.py), as a shallow
embedding.  Python strings are modeled as lists of characters so that the
slice text[p:] becomes List.drop p text; message identifiers (UUID strings
produced by str(uuid.uuid4())) are modeled as natural numbers drawn from a
fresh-id counter that is threaded explicitly, so "freshly generated" means
"the next counter value".  The remote collaborator (the chatgpt client) is
modeled by passing its responses as arguments: the reply stream is a list of
decoded events, the generated title is a string argument, and boolean
results are boolean arguments.  Console output is modeled as the list of
items the code would print.
-/

namespace Pandora

/-- Message and conversation identifiers (UUID strings in the source). -/
abbrev MsgId := Nat

/-- Python strings, as lists of characters. -/
abbrev Chars := List Char

/-- ChatPrompt: one turn's text plus its own id and its parent's id
(class ChatPrompt, legacy.py lines 13-21). -/
structure ChatPrompt where
  prompt : Option Chars
  parent_id : MsgId
  message_id : MsgId
deriving DecidableEq

/-- ChatPrompt.gen_message_id, modeled on the fresh-id counter: returns the
current counter value as the new id together with the bumped counter. -/
def gen_message_id (g : Nat) : MsgId × Nat := (g, g + 1)

/-- ChatPrompt.__init__: prompt is stored as given; parent_id and message_id
are taken from the arguments when supplied (truthy), otherwise freshly
generated, parent first (the source evaluates
`parent_id or self.gen_message_id()` then
`message_id or self.gen_message_id()`). -/
def ChatPrompt.make (prompt : Option Chars) (parent_id message_id : Option MsgId)
    (g : Nat) : ChatPrompt × Nat :=
  let pg1 := match parent_id with
    | some p => (p, g)
    | none => gen_message_id g
  let mg2 := match message_id with
    | some m => (m, pg1.2)
    | none => gen_message_id pg1.2
  ({ prompt := prompt, parent_id := pg1.1, message_id := mg2.1 }, mg2.2)

/-- State: mutable session state (class State, legacy.py lines 24-33). -/
structure State where
  title : Option Chars
  conversation_id : Option MsgId
  model_slug : Option Chars
  user_prompt : ChatPrompt
  chatgpt_prompt : ChatPrompt
  user_prompts : List ChatPrompt
  edit_index : Option Nat
deriving DecidableEq

/-- The default argument `user_prompt=ChatPrompt()` of State.__init__ is
evaluated once, at class-definition time, from the module-level id supply:
in Python, default argument expressions run when the `def` is executed, and
every later call that omits the argument reuses the very same object.  The
module-load counter starts at 0, so this shared default holds parent_id 0
and message_id 1. -/
def defaultUserPrompt : ChatPrompt := (ChatPrompt.make none none none 0).1

/-- The default argument `chatgpt_prompt=ChatPrompt()` of State.__init__,
evaluated right after `defaultUserPrompt` at class-definition time: it holds
parent_id 2 and message_id 3. -/
def defaultChatgptPrompt : ChatPrompt :=
  (ChatPrompt.make none none none (ChatPrompt.make none none none 0).2).1

/-- State.__init__: stores the five arguments and initializes
user_prompts to the empty list and edit_index to None.  Call sites that
omit prompt arguments pass the shared class-definition-time defaults
`defaultUserPrompt` and `defaultChatgptPrompt` explicitly. -/
def State.new (title : Option Chars) (conversation_id : Option MsgId)
    (model_slug : Option Chars) (user_prompt chatgpt_prompt : ChatPrompt) : State :=
  { title := title
    conversation_id := conversation_id
    model_slug := model_slug
    user_prompt := user_prompt
    chatgpt_prompt := chatgpt_prompt
    user_prompts := []
    edit_index := none }

/-- One decoded message inside a reply-stream event: the fields the consumer
reads are message['id'], message['author']['role'] and
message['content']['parts'][0]. -/
structure StreamMessage where
  id : MsgId
  author_role : String
  parts0 : Chars
deriving DecidableEq

/-- One decoded reply-stream event: result['error'] (none models a falsy
error field), result['message'] (none models a falsy message field) and
result['conversation_id']. -/
structure StreamEvent where
  error : Option Chars
  message : Option StreamMessage
  conversation_id : MsgId
deriving DecidableEq

/-- The exceptions ChatBot.__print_reply and ChatBot.__talk can raise. -/
inductive ReplyErr where
  /-- `raise Exception(status, next(generator))` on a non-200 status. -/
  | requestFailed (status : Nat) (firstEvent : StreamEvent)
  /-- `next(generator)` on an exhausted stream raises StopIteration before
  the Exception above is even constructed. -/
  | stopIteration
  /-- `raise Exception(result['error'])` on a truthy error field. -/
  | streamError (detail : Chars)
  /-- `raise Exception('miss message property.')` on a falsy message. -/
  | missingMessage
  /-- `self.state.user_prompts[idx]` out of range in ChatBot.__talk. -/
  | indexError
deriving DecidableEq

/-- One iteration of the event loop of ChatBot.__print_reply (legacy.py
lines 342-364), for the event `result`: raise on a truthy error field,
raise on a falsy message field; when the author role is assistant, take the
suffix text[p:] of the cumulative text and advance p by its length;
unconditionally adopt result['conversation_id'] and overwrite
chatgpt_prompt's text, parent (the current user prompt's message_id) and
message id; when the author role is system, re-parent the user prompt onto
the event's message id.  Returns the updated state, the updated p, and the
chunk list printed by `Console.success(text, end='')` (only truthy, hence
non-empty, text is printed). -/
def stepEvent (st : State) (p : Nat) (ev : StreamEvent) :
    Except ReplyErr (State × Nat × List Chars) :=
  match ev.error with
  | some detail => .error (.streamError detail)
  | none =>
    match ev.message with
    | none => .error .missingMessage
    | some msg =>
      let tp : Option Chars × Nat :=
        if msg.author_role = "assistant" then
          let t := msg.parts0.drop p
          (some t, p + t.length)
        else (none, p)
      let st' : State :=
        { st with
          conversation_id := some ev.conversation_id
          chatgpt_prompt :=
            { prompt := some msg.parts0
              parent_id := st.user_prompt.message_id
              message_id := msg.id }
          user_prompt :=
            if msg.author_role = "system" then
              { st.user_prompt with parent_id := msg.id }
            else st.user_prompt }
      let emitted : List Chars :=
        match tp.1 with
        | some t => if t.isEmpty then [] else [t]
        | none => []
      .ok (st', tp.2, emitted)

/-- The event loop of ChatBot.__print_reply (legacy.py lines 341-364):
fold stepEvent over the stream, threading the state and the running offset
p and concatenating the printed chunks.  In the source the state is mutated
in place; here it is threaded, and an error result corresponds to the
raised exception aborting the loop. -/
def processEvents (st : State) (p : Nat) :
    List StreamEvent → Except ReplyErr (State × List Chars)
  | [] => .ok (st, [])
  | ev :: rest =>
    match stepEvent st p ev with
    | .error e => .error e
    | .ok s => match processEvents s.1 s.2.1 rest with
      | .ok r => .ok (r.1, s.2.2 ++ r.2)
      | .error e => .error e

/-- ChatBot.__print_reply (legacy.py lines 337-366): on a non-200 status it
raises Exception(status, next(generator)) before touching any state;
otherwise it runs the event loop with the offset p starting at 0. -/
def print_reply (status : Nat) (events : List StreamEvent) (st : State) :
    Except ReplyErr (State × List Chars) :=
  if status ≠ 200 then
    match events with
    | [] => .error .stopIteration
    | ev :: _ => .error (.requestFailed status ev)
  else
    processEvents st 0 events

/-- Result of ChatBot.__regenerate_reply / ChatBot.__continue: the final
state, the printed chunks, whether the remote endpoint was invoked, and
whether the local "Conversation has not been created." message was
printed. -/
structure GuardedCallResult where
  state : State
  emitted : List Chars
  remoteCalled : Bool
  preconditionFailed : Bool
deriving DecidableEq

/-- ChatBot.__regenerate_reply (legacy.py lines 314-324): if the state has
no conversation_id it prints an error and returns without calling the
remote service; otherwise it calls chatgpt.regenerate_reply (whose response
is the status/events arguments) and drives __print_reply. -/
def regenerate_reply (st : State) (status : Nat) (events : List StreamEvent) :
    Except ReplyErr GuardedCallResult :=
  match st.conversation_id with
  | none =>
    .ok { state := st, emitted := [], remoteCalled := false, preconditionFailed := true }
  | some _ =>
    match print_reply status events st with
    | .error e => .error e
    | .ok r =>
      .ok { state := r.1, emitted := r.2, remoteCalled := true, preconditionFailed := false }

/-- ChatBot.__continue (legacy.py lines 326-335): same guard as
__regenerate_reply, then calls chatgpt.goon and drives __print_reply. -/
def continueGen (st : State) (status : Nat) (events : List StreamEvent) :
    Except ReplyErr GuardedCallResult :=
  match st.conversation_id with
  | none =>
    .ok { state := st, emitted := [], remoteCalled := false, preconditionFailed := true }
  | some _ =>
    match print_reply status events st with
    | .error e => .error e
    | .ok r =>
      .ok { state := r.1, emitted := r.2, remoteCalled := true, preconditionFailed := false }

/-- The local errors ChatBot.__set_conversation_title can print. -/
inductive TitleErr where
  /-- '#### Conversation has not been created.' -/
  | noConversation
  /-- '#### Title too long.' -/
  | titleTooLong
  /-- '#### Set title failed.' -/
  | remoteFailed
deriving DecidableEq

/-- ChatBot.__set_conversation_title (legacy.py lines 195-209): guard on an
existing conversation, then on the title length (at most 64 characters),
then call the remote set_conversation_title (its boolean result is the
remoteOk argument) and adopt the title on success.  Returns the state,
whether the remote endpoint was invoked, and the printed error if any. -/
def set_conversation_title (st : State) (new_title : Chars) (remoteOk : Bool) :
    State × Bool × Option TitleErr :=
  match st.conversation_id with
  | none => (st, false, some TitleErr.noConversation)
  | some _ =>
    if new_title.length > 64 then
      (st, false, some TitleErr.titleTooLong)
    else if remoteOk then
      ({ st with title := some new_title }, true, none)
    else
      (st, true, some TitleErr.remoteFailed)

/-- Result of ChatBot.__talk: the final state, the streamed chunks, the
number of chatgpt.gen_conversation_title calls made, and the id counter. -/
structure TalkResult where
  state : State
  emitted : List Chars
  titleCalls : Nat
  gen : Nat
deriving DecidableEq

/-- ChatBot.__talk (legacy.py lines 286-312).  first_prompt records whether
conversation_id was falsy on entry.  If edit_index is truthy, the history
entry at edit_index - 1 is spliced out: a new ChatPrompt is built from its
parent_id, the history is truncated before it, and edit_index is cleared;
otherwise the new user prompt chains off chatgpt_prompt.message_id.  The
remote chatgpt.talk response is the status/events arguments; __print_reply
is driven on it, then the current user_prompt object is appended to the
history.  If this was the first prompt, chatgpt.gen_conversation_title is
called once (its response is the genTitleResult argument) and its result
adopted as the title. -/
def talk (st : State) (text : Chars) (status : Nat) (events : List StreamEvent)
    (genTitleResult : Chars) (g : Nat) : Except ReplyErr TalkResult :=
  let first_prompt := st.conversation_id.isNone
  let splice : Except ReplyErr (State × Nat) :=
    if st.edit_index.getD 0 ≠ 0 then
      let idx := st.edit_index.getD 0 - 1
      match st.user_prompts[idx]? with
      | none => .error .indexError
      | some user_prompt =>
        let npg := ChatPrompt.make (some text) (some user_prompt.parent_id) none g
        .ok ({ st with
                user_prompt := npg.1
                user_prompts := st.user_prompts.take idx
                edit_index := none }, npg.2)
    else
      let npg := ChatPrompt.make (some text) (some st.chatgpt_prompt.message_id) none g
      .ok ({ st with user_prompt := npg.1 }, npg.2)
  match splice with
  | .error e => .error e
  | .ok sg =>
    match print_reply status events sg.1 with
    | .error e => .error e
    | .ok r =>
      let st3 := { r.1 with user_prompts := r.1.user_prompts ++ [r.1.user_prompt] }
      if first_prompt then
        .ok { state := { st3 with title := some genTitleResult }
              emitted := r.2, titleCalls := 1, gen := sg.2 }
      else
        .ok { state := st3, emitted := r.2, titleCalls := 0, gen := sg.2 }

/-- The tri-state end_turn field of a loaded message: the key may be absent,
present with value None, or present with a non-None value. -/
inductive EndTurn where
  | absent
  | null
  | val (b : Bool)
deriving DecidableEq

/-- One loaded message, with the fields ChatBot.__load_conversation reads:
the polymorphic role (message['author']['role'] when the 'author' key is
present, else message['role']), content.parts[0], the optional
metadata.model_slug, and the tri-state end_turn. -/
structure LoaderMessage where
  author : Option String
  role : String
  parts0 : Chars
  metadata_model_slug : Option Chars
  end_turn : EndTurn
deriving DecidableEq

/-- Role resolution: `message['author']['role'] if 'author' in message else
message['role']` (legacy.py line 260). -/
def LoaderMessage.getRole (m : LoaderMessage) : String := m.author.getD m.role

/-- One node of the remote conversation mapping: node['id'], the optional
node['parent'] (absent or falsy modeled as none), and node['message']. -/
structure LoaderNode where
  id : MsgId
  parent : Option MsgId
  message : LoaderMessage
deriving DecidableEq

/-- The parent-link walk of ChatBot.__load_conversation (legacy.py lines
243-249): starting from current_node, repeatedly prepend the node and step
to its parent, stopping (without prepending) at the first node whose parent
field is falsy.  The source loops `while True`; the fuel argument bounds the
walk, and none models a lookup failure (KeyError) or exhausted fuel (the
Python loop would run forever on a cyclic mapping). -/
def buildNodes (mapping : MsgId → Option LoaderNode) :
    Nat → MsgId → List LoaderNode → Option (List LoaderNode)
  | 0, _, _ => none
  | fuel + 1, current, acc =>
    match mapping current with
    | none => none
    | some node =>
      match node.parent with
      | none => some acc
      | some par => buildNodes mapping fuel par (node :: acc)

/-- One item of the loader's console output: Console.info_b('You:'),
Console.success_b('ChatGPT:'), a printed message text, or the blank
separator line print(). -/
inductive RenderItem where
  | youHeader
  | botHeader
  | line (t : Chars)
  | sep
deriving DecidableEq

/-- Adopt metadata.model_slug when the key is present (legacy.py lines
257-258); this runs for every node, before the role dispatch. -/
def adoptSlug (st : State) (msg : LoaderMessage) : State :=
  match msg.metadata_model_slug with
  | some s => { st with model_slug := some s }
  | none => st

/-- The user-node effects of the loader loop (legacy.py lines 262-264 and
279-281): append to user_prompts a new ChatPrompt built from the node's
text and parent (its message_id freshly generated), and overwrite the
shared state.user_prompt object with the node's text, parent and id. -/
def userUpdate (st : State) (node : LoaderNode) (g : Nat) : State × Nat :=
  let cpg := ChatPrompt.make (some node.message.parts0) node.parent none g
  ({ st with
      user_prompts := st.user_prompts ++ [cpg.1]
      user_prompt :=
        { prompt := some node.message.parts0
          parent_id := node.parent.getD 0
          message_id := node.id } }, cpg.2)

/-- The assistant-node state effects of the loader loop (legacy.py lines
268-269 and 279-281): overwrite the shared state.chatgpt_prompt object
with the node's text, parent and id. -/
def asstUpdate (st : State) (node : LoaderNode) : State :=
  { st with
    chatgpt_prompt :=
      { prompt := some node.message.parts0
        parent_id := node.parent.getD 0
        message_id := node.id } }

/-- The node loop of ChatBot.__load_conversation (legacy.py lines 254-284).
For each node: adopt metadata.model_slug when present; on a user node,
append a new ChatPrompt (text, parent_id = node's parent, freshly generated
message_id) to user_prompts, print the You: header and the text, and
overwrite state.user_prompt with the node's text, parent and id; on an
assistant node, print the ChatGPT: header unless the merge flag is set,
print the text, set merge to whether end_turn is present and None, and
overwrite state.chatgpt_prompt likewise; any other role is skipped.  After
a user or assistant node, print the blank separator unless the merge flag
is set.  Returns the state, the console output and the id counter. -/
def loadFold (merge : Bool) (st : State) (g : Nat) :
    List LoaderNode → State × List RenderItem × Nat
  | [] => (st, [], g)
  | node :: rest =>
    let st0 := adoptSlug st node.message
    if node.message.getRole = "user" then
      let sg := userUpdate st0 node g
      let out := [RenderItem.youHeader, RenderItem.line node.message.parts0]
        ++ (if merge then [] else [RenderItem.sep])
      let r := loadFold merge sg.1 sg.2 rest
      (r.1, out ++ r.2.1, r.2.2)
    else if node.message.getRole = "assistant" then
      let merge' := decide (node.message.end_turn = EndTurn.null)
      let out := (if merge then [] else [RenderItem.botHeader])
        ++ [RenderItem.line node.message.parts0]
        ++ (if merge' then [] else [RenderItem.sep])
      let r := loadFold merge' (asstUpdate st0 node) g rest
      (r.1, out ++ r.2.1, r.2.2)
    else
      loadFold merge st0 g rest

/-- The response of chatgpt.get_conversation: title, current_node, and the
node mapping. -/
structure ConversationData where
  title : Chars
  current_node : MsgId
  mapping : MsgId → Option LoaderNode

/-- ChatBot.__load_conversation (legacy.py lines 233-284): no-op on a falsy
conversation_id; otherwise build a fresh State carrying the id (with the
shared default prompts), fetch the conversation data, walk the parent
links, adopt the title, and run the node loop with the merge flag initially
False.  none models the falsy-id no-op and walk failure. -/
def load_conversation (conversation_id : Option MsgId) (data : ConversationData)
    (fuel g : Nat) : Option (State × List RenderItem × Nat) :=
  match conversation_id with
  | none => none
  | some cid =>
    let st0 := State.new none (some cid) none defaultUserPrompt defaultChatgptPrompt
    match buildNodes data.mapping fuel data.current_node [] with
    | none => none
    | some nodes =>
      let st1 := { st0 with title := some data.title }
      some (loadFold false st1 g nodes)

/-- A fresh session state, as produced by `State()` with all defaults:
no conversation yet, shared default prompts. -/
def stFresh : State := State.new none none none defaultUserPrompt defaultChatgptPrompt

/-- An established-conversation state, as produced by
`State(conversation_id=...)`. -/
def stEstablished : State := State.new none (some 3) none defaultUserPrompt defaultChatgptPrompt

/-- A minimal concrete stream event. -/
def evPlain : StreamEvent := { error := none, message := none, conversation_id := 0 }

/-- The cumulative text carried by a stream event (content.parts[0] of its
message, empty when the message is absent). -/
def textOf (e : StreamEvent) : Chars :=
  match e.message with
  | some m => m.parts0
  | none => []

/-- Whether a stream event carries an assistant-role message. -/
def isAssistantEvent (e : StreamEvent) : Bool :=
  decide ((e.message.map fun m => m.author_role) = some "assistant")

/-- The cumulative texts of the assistant-role events of a stream, in
order. -/
def assistantTexts (es : List StreamEvent) : List Chars :=
  (es.filter isAssistantEvent).map textOf

/-- A concrete assistant stream message carrying the first two characters
of the final text. -/
def msgA1 : StreamMessage := { id := 1, author_role := "assistant", parts0 := ['a', 'b'] }

/-- A concrete assistant stream message carrying the full final text. -/
def msgA2 : StreamMessage :=
  { id := 2, author_role := "assistant", parts0 := ['a', 'b', 'c', 'd'] }

/-- First concrete assistant event. -/
def evA1 : StreamEvent := { error := none, message := some msgA1, conversation_id := 8 }

/-- Second concrete assistant event. -/
def evA2 : StreamEvent := { error := none, message := some msgA2, conversation_id := 8 }

/-- A concrete system-role stream message. -/
def msgSys : StreamMessage := { id := 42, author_role := "system", parts0 := [] }

/-- A concrete system-role stream event. -/
def evSys : StreamEvent := { error := none, message := some msgSys, conversation_id := 7 }

/-- A concrete history entry used in the edit-splice scenarios. -/
def cpOld : ChatPrompt := { prompt := some ['o'], parent_id := 5, message_id := 6 }

/-- An established-conversation state with one history entry, about to be
edited at position 1. -/
def stEdit : State :=
  { stEstablished with user_prompts := [cpOld], edit_index := some 1 }

/-- The result of the concrete first-turn talk run used as the C7 witness
(fresh state, empty reply stream). -/
def outC7w : TalkResult :=
  match talk stFresh ['h'] 200 [] ['T'] 0 with
  | .ok o => o
  | .error _ => { state := stFresh, emitted := [], titleCalls := 0, gen := 0 }

/-- The result of the concrete edit-splice talk run used as the C3 witness
(state stEdit, empty reply stream). -/
def outC3w : TalkResult :=
  match talk stEdit ['n'] 200 [] ['T'] 0 with
  | .ok o => o
  | .error _ => { state := stFresh, emitted := [], titleCalls := 0, gen := 0 }

/-- A concrete assistant node whose end_turn key is present with value
None. -/
def aNull : LoaderNode :=
  { id := 10, parent := some 9
    message :=
      { author := some "assistant", role := "assistant", parts0 := ['a']
        metadata_model_slug := none, end_turn := EndTurn.null } }

/-- A concrete user node. -/
def uNode : LoaderNode :=
  { id := 11, parent := some 10
    message :=
      { author := some "user", role := "user", parts0 := ['u']
        metadata_model_slug := none, end_turn := EndTurn.absent } }

/-- A concrete assistant node whose end_turn key is absent. -/
def aEnd : LoaderNode :=
  { id := 12, parent := some 11
    message :=
      { author := some "assistant", role := "assistant", parts0 := ['b']
        metadata_model_slug := none, end_turn := EndTurn.absent } }

/-- The i-th node of a synthetic single-path conversation described by a
list of role/text pairs: node i has id i, parent i-1 (the node at index 0
is the parentless root), the plain role field (no author key), and no
model_slug or end_turn keys. -/
def pathNode (ps : List (String × Chars)) (i : Nat) : LoaderNode :=
  { id := i
    parent := if i = 0 then none else some (i - 1)
    message :=
      { author := none
        role := (ps.getD i ("", [])).1
        parts0 := (ps.getD i ("", [])).2
        metadata_model_slug := none
        end_turn := EndTurn.absent } }

/-- The node mapping of the synthetic single-path conversation. -/
def pathMapping (ps : List (String × Chars)) : MsgId → Option LoaderNode :=
  fun i => if i < ps.length then some (pathNode ps i) else none

/-- The get_conversation response for the synthetic single-path
conversation; the current node is the leaf, of id ps.length - 1. -/
def pathData (ps : List (String × Chars)) : ConversationData :=
  { title := [], current_node := ps.length - 1, mapping := pathMapping ps }

/-- Roles alternate between user and assistant along the path. -/
def alternatingUA (ps : List (String × Chars)) : Prop :=
  (∀ q ∈ ps, q.1 = "user" ∨ q.1 = "assistant") ∧
    List.Chain' (fun q r => q.1 ≠ r.1) ps

/-- A two-node path whose parentless root is a user node. -/
def ps2 : List (String × Chars) := [("user", ['h']), ("assistant", ['y'])]

/-- A three-node alternating path. -/
def ps4 : List (String × Chars) :=
  [("user", ['a']), ("assistant", ['b']), ("user", ['c'])]

/-- Unfolding of stepEvent on a well-formed event (no error, message
present). -/
theorem stepEvent_ok (st : State) (p : Nat) (ev : StreamEvent) (m : StreamMessage)
    (herr : ev.error = none) (hmsg : ev.message = some m) :
    stepEvent st p ev = .ok
      ({ st with
          conversation_id := some ev.conversation_id
          chatgpt_prompt :=
            { prompt := some m.parts0
              parent_id := st.user_prompt.message_id
              message_id := m.id }
          user_prompt :=
            if m.author_role = "system" then
              { st.user_prompt with parent_id := m.id }
            else st.user_prompt },
        (if m.author_role = "assistant" then p + (m.parts0.drop p).length else p),
        (if m.author_role = "assistant" then
          (if (m.parts0.drop p).isEmpty then [] else [m.parts0.drop p])
        else [])) := by
  simp only [stepEvent, herr, hmsg]
  by_cases h : m.author_role = "assistant" <;> simp [h]

/-- A successful stepEvent never touches user_prompts, edit_index, the
title, or the user prompt's text and message_id; it leaves the whole user
prompt alone unless the event's role is system. -/
theorem stepEvent_preserves (st : State) (p : Nat) (ev : StreamEvent)
    (s : State × Nat × List Chars) (h : stepEvent st p ev = .ok s) :
    s.1.user_prompts = st.user_prompts ∧ s.1.edit_index = st.edit_index ∧
    s.1.user_prompt.prompt = st.user_prompt.prompt ∧
    s.1.user_prompt.message_id = st.user_prompt.message_id ∧
    (((ev.message.map fun m => m.author_role) ≠ some "system") →
      s.1.user_prompt = st.user_prompt) ∧
    s.1.title = st.title := by
  cases herr : ev.error with
  | some d => simp [stepEvent, herr] at h
  | none =>
    cases hmsg : ev.message with
    | none => simp [stepEvent, herr, hmsg] at h
    | some m =>
      rw [stepEvent_ok st p ev m herr hmsg] at h
      simp only [Except.ok.injEq] at h
      subst h
      by_cases hrole : m.author_role = "system" <;> simp [hmsg, hrole]

/-- A successful run of the whole event loop never touches user_prompts,
edit_index or the title, keeps the user prompt's text and message_id, and
leaves the whole user prompt alone when no event has the system role. -/
theorem processEvents_preserves (es : List StreamEvent) :
    ∀ (st : State) (p : Nat) (stf : State) (chunks : List Chars),
    processEvents st p es = .ok (stf, chunks) →
    stf.user_prompts = st.user_prompts ∧ stf.edit_index = st.edit_index ∧
    stf.user_prompt.prompt = st.user_prompt.prompt ∧
    stf.user_prompt.message_id = st.user_prompt.message_id ∧
    ((∀ e ∈ es, (e.message.map fun m => m.author_role) ≠ some "system") →
      stf.user_prompt = st.user_prompt) ∧
    stf.title = st.title := by
  induction es with
  | nil =>
    intro st p stf chunks h
    simp only [processEvents, Except.ok.injEq, Prod.mk.injEq] at h
    obtain ⟨rfl, rfl⟩ := h
    simp
  | cons ev rest ih =>
    intro st p stf chunks h
    simp only [processEvents] at h
    cases hstep : stepEvent st p ev with
    | error e => rw [hstep] at h; simp at h
    | ok s =>
      simp only [hstep] at h
      cases hrec : processEvents s.1 s.2.1 rest with
      | error e => rw [hrec] at h; simp at h
      | ok r =>
        simp only [hrec] at h
        simp only [Except.ok.injEq, Prod.mk.injEq] at h
        obtain ⟨rfl, rfl⟩ := h
        obtain ⟨h1, h2, h3, h4, h5, h6⟩ := stepEvent_preserves st p ev s hstep
        obtain ⟨g1, g2, g3, g4, g5, g6⟩ := ih s.1 s.2.1 r.1 r.2 (by rw [hrec])
        refine ⟨by rw [g1, h1], by rw [g2, h2], by rw [g3, h3], by rw [g4, h4], ?_, by rw [g6, h6]⟩
        intro hnosys
        rw [g5 (fun e he => hnosys e (List.mem_cons_of_mem ev he)),
          h5 (hnosys ev (List.mem_cons_self ev rest))]

/-- A successful print_reply run means the status was 200 and the event
loop ran from offset 0. -/
theorem print_reply_ok (status : Nat) (events : List StreamEvent) (st : State)
    (r : State × List Chars) (h : print_reply status events st = .ok r) :
    status = 200 ∧ processEvents st 0 events = .ok r := by
  by_cases hs : status = 200
  · subst hs
    simpa [print_reply] using h
  · exfalso
    simp only [print_reply, if_pos (show status ≠ 200 from hs)] at h
    cases events <;> simp at h

/-- C7: whenever a talk call returns successfully, it made exactly one
title-generation request and adopted the returned title if the
conversation_id was unset on entry, and made none if it was already set
(legacy.py lines 289 and 308-312). -/
theorem c7_first_turn_titling (st : State) (text : Chars) (status : Nat)
    (events : List StreamEvent) (title : Chars) (g : Nat) (out : TalkResult)
    (hok : talk st text status events title g = .ok out) :
    (st.conversation_id = none → out.titleCalls = 1 ∧ out.state.title = some title) ∧
    (st.conversation_id ≠ none → out.titleCalls = 0) := by
  cases hc : st.conversation_id with
  | none =>
    refine ⟨fun _ => ?_, fun hne => absurd rfl hne⟩
    simp only [talk, hc, Option.isNone_none] at hok
    split at hok
    · simp at hok
    · split at hok
      · simp at hok
      · simp only [if_true] at hok
        simp only [Except.ok.injEq] at hok
        subst hok
        exact ⟨rfl, rfl⟩
  | some c =>
    refine ⟨fun hnone => Option.noConfusion hnone, fun _ => ?_⟩
    simp only [talk, hc, Option.isNone_some] at hok
    split at hok
    · simp at hok
    · split at hok
      · simp at hok
      · simp only [Bool.false_eq_true, if_false] at hok
        simp only [Except.ok.injEq] at hok
        subst hok
        rfl

/-- Witness for C7: a concrete successful first-turn talk run makes one
title request and adopts the title. -/
theorem c7_first_turn_titling_witness :
    outC7w.titleCalls = 1 ∧ outC7w.state.title = some ['T'] :=
  (c7_first_turn_titling stFresh ['h'] 200 [] ['T'] 0 outC7w rfl).1 rfl

/-- C3 counterexample: on the concrete state stEdit (one history entry
cpOld with parent_id 5, edit_index 1), a successful talk over a stream
holding one system-role event produces a history whose single new entry has
parent_id 42 (the system node id adopted by legacy.py line 361), not the
old entry's parent_id 5 — so the claim that the new entry's parent_id
always equals the old entry's parent_id fails. -/
theorem c3_edit_splice_counterexample :
    (talk stEdit ['n'] 200 [evSys] ['T'] 0).toOption.map
        (fun o => o.state.user_prompts.map fun c => (c.prompt, c.parent_id)) =
      some [(some ['n'], 42)] ∧
    cpOld.parent_id = 5 ∧ (42 : MsgId) ≠ cpOld.parent_id := by
  refine ⟨by decide, rfl, by decide⟩

/-- C3 (amended): with edit_index set to a valid 1-based position k and a
reply stream containing no system-role event, a successful talk(new_text)
leaves exactly the history entries before position k followed by one new
entry carrying new_text and the old entry's parent_id, and clears
edit_index; a system-role event in the stream instead re-parents the new
entry onto the system node's id before it is appended (legacy.py lines
291-297, 306, 361). -/
theorem c3_edit_splice_amended (st : State) (k : Nat) (text : Chars) (status : Nat)
    (events : List StreamEvent) (title : Chars) (g : Nat) (out : TalkResult)
    (old : ChatPrompt) (hedit : st.edit_index = some k) (hk : 1 ≤ k)
    (hold : st.user_prompts[k - 1]? = some old)
    (hnosys : ∀ e ∈ events, (e.message.map fun m => m.author_role) ≠ some "system")
    (hok : talk st text status events title g = .ok out) :
    ∃ np, out.state.user_prompts = st.user_prompts.take (k - 1) ++ [np] ∧
      np.prompt = some text ∧ np.parent_id = old.parent_id ∧
      out.state.edit_index = none := by
  have hkne : k ≠ 0 := by omega
  refine ⟨{ prompt := some text, parent_id := old.parent_id, message_id := g }, ?_⟩
  simp only [talk, hedit, Option.getD_some, if_pos hkne, hold, ChatPrompt.make,
    gen_message_id] at hok
  split at hok
  · simp at hok
  · rename_i r heq
    have hpr := print_reply_ok status events _ r heq
    have hpres := processEvents_preserves events _ 0 r.1 r.2 (by
      rw [hpr.2])
    obtain ⟨hup, hei, _, _, hsame, _⟩ := hpres
    have hupv := hsame hnosys
    split at hok <;>
      (simp only [Except.ok.injEq] at hok; subst hok;
        refine ⟨?_, rfl, rfl, ?_⟩ <;> simp [hup, hei, hupv])

/-- Witness for C3 (amended) at the concrete state stEdit with an empty
reply stream. -/
theorem c3_edit_splice_amended_witness :
    stEdit.edit_index = some 1 ∧ 1 ≤ 1 ∧ stEdit.user_prompts[0]? = some cpOld ∧
    (∃ np, outC3w.state.user_prompts = stEdit.user_prompts.take 0 ++ [np] ∧
      np.prompt = some ['n'] ∧ np.parent_id = cpOld.parent_id ∧
      outC3w.state.edit_index = none) :=
  ⟨rfl, le_refl 1, rfl,
    c3_edit_splice_amended stEdit 1 ['n'] 200 [] ['T'] 0 outC3w cpOld rfl (le_refl 1)
      rfl (by simp) rfl⟩

/-- C9: processing a stream event whose message role is system re-parents
the current user prompt onto that event's message node id (legacy.py lines
360-361) and emits no visible text (only assistant events produce printed
chunks). -/
theorem c9_system_reparent (st : State) (p : Nat) (e : StreamEvent)
    (m : StreamMessage) (herr : e.error = none) (hmsg : e.message = some m)
    (hrole : m.author_role = "system") :
    ∃ st', processEvents st p [e] = .ok (st', []) ∧
      st'.user_prompt.parent_id = m.id := by
  have hstep := stepEvent_ok st p e m herr hmsg
  rw [hrole] at hstep
  simp only [reduceIte] at hstep
  refine ⟨{ st with
      conversation_id := some e.conversation_id
      chatgpt_prompt :=
        { prompt := some m.parts0
          parent_id := st.user_prompt.message_id
          message_id := m.id }
      user_prompt := { st.user_prompt with parent_id := m.id } }, ?_, rfl⟩
  simp [processEvents, hstep]

/-- Witness for C9 at a concrete system-role event. -/
theorem c9_system_reparent_witness :
    evSys.error = none ∧ evSys.message = some msgSys ∧
    msgSys.author_role = "system" ∧
    ∃ st', processEvents stFresh 0 [evSys] = .ok (st', []) ∧
      st'.user_prompt.parent_id = msgSys.id :=
  ⟨rfl, rfl, rfl, c9_system_reparent stFresh 0 evSys msgSys rfl rfl rfl⟩

/-- C4: every ChatPrompt actually constructed without an explicit message_id
does draw a fresh identifier from the supply (first conjunct), but two State
values created without explicit prompt arguments share the single
class-definition-time default ChatPrompt, so their user prompts carry the
same message_id (second conjunct), contradicting the claimed uniqueness.
This is the mutable-default-argument slip of State.__init__ (legacy.py
lines 25-26). -/
theorem c4_message_id_default_sharing :
    (∀ g : Nat,
      (ChatPrompt.make none none none g).1.message_id ≠
        (ChatPrompt.make none none none (ChatPrompt.make none none none g).2).1.message_id) ∧
    (State.new none none none defaultUserPrompt defaultChatgptPrompt).user_prompt.message_id =
      (State.new none (some 5) none defaultUserPrompt defaultChatgptPrompt).user_prompt.message_id := by
  constructor
  · intro g
    simp [ChatPrompt.make, gen_message_id]
  · rfl

/-- C5: regenerate and continue on a state with no conversation_id return
the state unchanged, print no reply chunks, make no remote call, and report
the precondition failure inline (legacy.py lines 314-317 and 326-329). -/
theorem c5_precondition_guard (st : State) (status : Nat) (events : List StreamEvent)
    (h : st.conversation_id = none) :
    regenerate_reply st status events =
      .ok { state := st, emitted := [], remoteCalled := false, preconditionFailed := true } ∧
    continueGen st status events =
      .ok { state := st, emitted := [], remoteCalled := false, preconditionFailed := true } := by
  constructor <;> simp [regenerate_reply, continueGen, h]

/-- Witness for C5 at a concrete fresh state. -/
theorem c5_precondition_guard_witness :
    stFresh.conversation_id = none ∧
    regenerate_reply stFresh 200 [] =
      .ok { state := stFresh, emitted := [], remoteCalled := false, preconditionFailed := true } ∧
    continueGen stFresh 200 [] =
      .ok { state := stFresh, emitted := [], remoteCalled := false, preconditionFailed := true } :=
  ⟨rfl, (c5_precondition_guard stFresh 200 [] rfl).1,
    (c5_precondition_guard stFresh 200 [] rfl).2⟩

/-- C6: on a non-200 status, the reply consumer fails at once with an error
carrying the status and the first stream event, before the event loop runs;
the error return is issued before any state field is assigned, so the state
is untouched and no event is otherwise processed (legacy.py lines 337-339). -/
theorem c6_non_success_status (status : Nat) (ev : StreamEvent)
    (rest : List StreamEvent) (st : State) (h : status ≠ 200) :
    print_reply status (ev :: rest) st = .error (.requestFailed status ev) := by
  simp [print_reply, h]

/-- Witness for C6 at status 404 on a one-event stream. -/
theorem c6_non_success_status_witness :
    (404 : Nat) ≠ 200 ∧
    print_reply 404 [evPlain] stFresh = .error (.requestFailed 404 evPlain) :=
  ⟨by decide, c6_non_success_status 404 evPlain [] stFresh (by decide)⟩

/-- C10: a requested title longer than 64 characters is rejected locally:
the state (in particular its title) is unchanged, the remote
set_conversation_title endpoint is not called, and an error is printed,
namely '#### Title too long.' whenever the conversation exists (legacy.py
lines 201-203). -/
theorem c10_title_length_guard (st : State) (new_title : Chars) (remoteOk : Bool)
    (h : new_title.length > 64) :
    (set_conversation_title st new_title remoteOk).1 = st ∧
    (set_conversation_title st new_title remoteOk).2.1 = false ∧
    (set_conversation_title st new_title remoteOk).2.2.isSome = true ∧
    (st.conversation_id.isSome = true →
      (set_conversation_title st new_title remoteOk).2.2 = some TitleErr.titleTooLong) := by
  cases hc : st.conversation_id <;> simp [set_conversation_title, hc, h]

/-- Witness for C10 with a concrete 65-character title. -/
theorem c10_title_length_guard_witness :
    (List.replicate 65 'a').length > 64 ∧
    (set_conversation_title stEstablished (List.replicate 65 'a') true).1 = stEstablished ∧
    (set_conversation_title stEstablished (List.replicate 65 'a') true).2.1 = false ∧
    (set_conversation_title stEstablished (List.replicate 65 'a') true).2.2 =
      some TitleErr.titleTooLong :=
  ⟨by decide,
    (c10_title_length_guard stEstablished (List.replicate 65 'a') true (by decide)).1,
    (c10_title_length_guard stEstablished (List.replicate 65 'a') true (by decide)).2.1,
    (c10_title_length_guard stEstablished (List.replicate 65 'a') true (by decide)).2.2.2 rfl⟩

/-- C2 counterexample: rendering the concrete list aNull, uNode, aEnd from
a clear merge flag prints the assistant header, the assistant text, then
immediately the user header, the user text and the second assistant's text:
no blank separator appears before the final position.  So an assistant node
with end_turn present-and-null followed by a user node is NOT rendered with
a separating turn boundary, and the user turn does not reset the merge flag
(the second assistant even loses its ChatGPT: header), refuting the claim
as stated. -/
theorem c2_merge_flag_counterexample :
    (loadFold false stFresh 0 [aNull, uNode, aEnd]).2.1 =
      [RenderItem.botHeader, RenderItem.line ['a'], RenderItem.youHeader,
        RenderItem.line ['u'], RenderItem.line ['b'], RenderItem.sep] ∧
    RenderItem.sep ∉ ((loadFold false stFresh 0 [aNull, uNode, aEnd]).2.1.take 5) := by
  exact ⟨by decide, by decide⟩

/-- C2 (amended): an assistant node whose end_turn is present-and-null
followed by another assistant node is rendered as one continuous block (the
two texts are adjacent in the output: no separator and no second header
between them); an assistant node whose end_turn is NOT present-and-null
followed by a user node is rendered with the blank separating line between
the two turns.  Non-assistant turns leave the merge flag unchanged; only
assistant turns set or clear it (legacy.py lines 254-284). -/
theorem c2_merge_flag_amended (m : Bool) (st : State) (g : Nat) (a b : LoaderNode)
    (rest : List LoaderNode) (ha : a.message.getRole = "assistant") :
    ((a.message.end_turn = EndTurn.null ∧ b.message.getRole = "assistant") →
      ∃ tail, (loadFold m st g (a :: b :: rest)).2.1 =
        (if m then [] else [RenderItem.botHeader]) ++
          RenderItem.line a.message.parts0 :: RenderItem.line b.message.parts0 :: tail) ∧
    ((a.message.end_turn ≠ EndTurn.null ∧ b.message.getRole = "user") →
      ∃ tail, (loadFold m st g (a :: b :: rest)).2.1 =
        (if m then [] else [RenderItem.botHeader]) ++
          RenderItem.line a.message.parts0 :: RenderItem.sep ::
            RenderItem.youHeader :: RenderItem.line b.message.parts0 :: tail) := by
  constructor
  · rintro ⟨h1, h2⟩
    refine ⟨(if decide (b.message.end_turn = EndTurn.null) then [] else [RenderItem.sep]) ++
      (loadFold (decide (b.message.end_turn = EndTurn.null))
        (asstUpdate (adoptSlug (asstUpdate (adoptSlug st a.message) a) b.message) b)
        g rest).2.1, ?_⟩
    simp [loadFold, ha, h1, h2]
  · rintro ⟨h1, h2⟩
    refine ⟨RenderItem.sep ::
      (loadFold false
        (userUpdate (adoptSlug (asstUpdate (adoptSlug st a.message) a) b.message) b g).1
        (userUpdate (adoptSlug (asstUpdate (adoptSlug st a.message) a) b.message) b g).2
        rest).2.1, ?_⟩
    simp [loadFold, ha, h1, h2]

/-- Witness for C2 (amended), first branch, at the concrete pair aNull,
aEnd with a clear merge flag. -/
theorem c2_merge_flag_amended_witness :
    aNull.message.getRole = "assistant" ∧
    ((aNull.message.end_turn = EndTurn.null ∧ aEnd.message.getRole = "assistant") →
      ∃ tail, (loadFold false stFresh 0 [aNull, aEnd]).2.1 =
        (if false then [] else [RenderItem.botHeader]) ++
          RenderItem.line aNull.message.parts0 ::
            RenderItem.line aEnd.message.parts0 :: tail) :=
  ⟨rfl, (c2_merge_flag_amended false stFresh 0 aNull aEnd [] rfl).1⟩

/-- Mapping positional lookup over the index range of a list rebuilds the
list. -/
theorem getD_range_map {α : Type} (l : List α) (d : α) :
    ((List.range l.length).map fun i => l.getD i d) = l := by
  induction l with
  | nil => simp
  | cons a t ih =>
    simp only [List.length_cons, List.range_succ_eq_map, List.map_cons,
      List.getD_cons_zero, List.map_map, Function.comp_def, List.getD_cons_succ]
    rw [ih]

/-- Looking up positions 1, 2, ... of a list yields its tail. -/
theorem drop_one_getD (ps : List (String × Chars)) :
    ((List.range (ps.length - 1)).map fun j => ps.getD (j + 1) ("", [])) =
      ps.drop 1 := by
  cases ps with
  | nil => simp
  | cons a t =>
    simp only [List.length_cons, Nat.add_sub_cancel, List.getD_cons_succ,
      List.drop_succ_cons, List.drop_zero]
    exact getD_range_map t ("", [])

/-- The parent of a non-root synthetic path node is its predecessor. -/
theorem pathNode_parent_succ (ps : List (String × Chars)) (k : Nat) :
    (pathNode ps (k + 1)).parent = some k := by
  simp [pathNode]

/-- The parent-link walk over the synthetic path, started at node k with
fuel k + 1, collects nodes 1 through k in root-to-leaf order in front of
the accumulator; the parentless root node 0 is never collected. -/
theorem buildNodes_path (ps : List (String × Chars)) :
    ∀ (k : Nat) (acc : List LoaderNode), k < ps.length →
      buildNodes (pathMapping ps) (k + 1) k acc =
        some (((List.range k).map fun j => pathNode ps (j + 1)) ++ acc) := by
  intro k
  induction k with
  | zero =>
    intro acc h
    simp [buildNodes, pathMapping, h, pathNode]
  | succ k ih =>
    intro acc h
    have hk : k < ps.length := Nat.lt_of_succ_lt h
    rw [buildNodes]
    rw [show pathMapping ps (k + 1) = some (pathNode ps (k + 1)) from by
      simp [pathMapping, h]]
    dsimp only
    rw [pathNode_parent_succ]
    dsimp only
    rw [ih (pathNode ps (k + 1) :: acc) hk]
    simp [List.range_succ]

/-- adoptSlug never changes user_prompts. -/
theorem adoptSlug_user_prompts (st : State) (msg : LoaderMessage) :
    (adoptSlug st msg).user_prompts = st.user_prompts := by
  cases h : msg.metadata_model_slug <;> simp [adoptSlug, h]

/-- The loader's node loop extends user_prompts by exactly one entry per
user-role node, in node order, each carrying the node's text. -/
theorem loadFold_user_prompts_proj (ns : List LoaderNode) :
    ∀ (merge : Bool) (st : State) (g : Nat),
      ((loadFold merge st g ns).1.user_prompts.map fun c => c.prompt) =
        (st.user_prompts.map fun c => c.prompt) ++
          ((ns.filter fun n => n.message.getRole = "user").map
            fun n => some n.message.parts0) := by
  induction ns with
  | nil => intro merge st g; simp [loadFold]
  | cons node rest ih =>
    intro merge st g
    by_cases hu : node.message.getRole = "user"
    · simp only [loadFold]
      rw [if_pos hu]
      dsimp only
      rw [ih]
      simp [userUpdate, ChatPrompt.make, adoptSlug_user_prompts, List.filter_cons, hu]
    · by_cases hA : node.message.getRole = "assistant"
      · simp only [loadFold]
        rw [if_neg hu, if_pos hA]
        dsimp only
        rw [ih]
        simp [asstUpdate, adoptSlug_user_prompts, List.filter_cons, hu]
      · simp only [loadFold]
        rw [if_neg hu, if_neg hA]
        rw [ih]
        simp [adoptSlug_user_prompts, List.filter_cons, hu]

/-- C8 counterexample: the two-node alternating path ps2 has a user-role
root, but the walk of ChatBot.__load_conversation stops before collecting
the parentless root node, so the loaded user_prompt_history is empty while
the map has one user-role node, refuting the claimed length equality. -/
theorem c8_loader_roundtrip_counterexample :
    alternatingUA ps2 ∧
    ((load_conversation (some 1) (pathData ps2) ps2.length 0).map
        fun r => r.1.user_prompts.length) ≠
      some (ps2.countP fun q => q.1 = "user") := by
  constructor
  · constructor
    · decide
    · simp [ps2]
  · decide

/-- C8 (amended): for every non-empty synthetic single-path node map with
alternating user/assistant roles, the loader walks the parent links from
the leaf and builds, root-to-leaf, the list of nodes that have a parent —
the parentless root is excluded — and produces a user_prompt_history
holding, in root-to-leaf order, exactly the texts of the user-role nodes
among those non-root nodes; in particular its length is the number of
user-role non-root nodes. -/
theorem c8_loader_roundtrip_amended (ps : List (String × Chars)) (g : Nat) (cid : MsgId)
    (halt : alternatingUA ps) (hne : ps ≠ []) :
    ∃ r, load_conversation (some cid) (pathData ps) ps.length g = some r ∧
      (r.1.user_prompts.map fun c => c.prompt) =
        (((ps.drop 1).filter fun q => q.1 = "user").map fun q => some q.2) ∧
      r.1.user_prompts.length = (ps.drop 1).countP fun q => q.1 = "user" := by
  have hlen : 1 ≤ ps.length := by
    cases ps with
    | nil => exact absurd rfl hne
    | cons a t => simp
  have hk : ps.length - 1 < ps.length := by omega
  have hwalk := buildNodes_path ps (ps.length - 1) [] hk
  have hfuel : ps.length - 1 + 1 = ps.length := by omega
  rw [hfuel, List.append_nil] at hwalk
  have hproj :
      ((loadFold false
          { State.new none (some cid) none defaultUserPrompt defaultChatgptPrompt with
              title := some ([] : Chars) } g
          ((List.range (ps.length - 1)).map fun j => pathNode ps (j + 1))).1.user_prompts.map
        fun c => c.prompt) =
        (((ps.drop 1).filter fun q => q.1 = "user").map fun q => some q.2) := by
    rw [loadFold_user_prompts_proj]
    simp only [State.new, List.map_nil, List.nil_append]
    rw [← drop_one_getD ps, List.filter_map, List.filter_map, List.map_map, List.map_map]
    have hP : ((fun n : LoaderNode => decide (n.message.getRole = "user")) ∘
        fun j => pathNode ps (j + 1)) =
        ((fun q : String × Chars => decide (q.1 = "user")) ∘
          fun j => ps.getD (j + 1) ("", [])) := by
      funext j
      simp [pathNode, LoaderMessage.getRole]
    have hQ : ((fun n : LoaderNode => some n.message.parts0) ∘
        fun j => pathNode ps (j + 1)) =
        ((fun q : String × Chars => some q.2) ∘
          fun j => ps.getD (j + 1) ("", [])) := by
      funext j
      simp [pathNode]
    rw [hP, hQ]
  refine ⟨_, ?_, hproj, ?_⟩
  · simp only [load_conversation, pathData, hwalk]
  · have hlenc := congrArg List.length hproj
    simpa [List.countP_eq_length_filter] using hlenc

/-- Witness for C8 (amended) at the concrete alternating three-node path
ps4. -/
theorem c8_loader_roundtrip_amended_witness :
    alternatingUA ps4 ∧ ps4 ≠ [] ∧
    ∃ r, load_conversation (some 1) (pathData ps4) ps4.length 0 = some r ∧
      (r.1.user_prompts.map fun c => c.prompt) =
        (((ps4.drop 1).filter fun q => q.1 = "user").map fun q => some q.2) ∧
      r.1.user_prompts.length = (ps4.drop 1).countP fun q => q.1 = "user" :=
  ⟨⟨by decide, by simp [ps4]⟩, by simp [ps4],
    c8_loader_roundtrip_amended ps4 0 1 ⟨by decide, by simp [ps4]⟩ (by simp [ps4])⟩

/-- Lists that are prefixes of a common string and have non-decreasing
lengths form a chain under the prefix order. -/
theorem chain_of_prefixes (l : List Chars) (S : Chars)
    (hall : ∀ t ∈ l, t <+: S)
    (hmono : List.Chain' (fun a b => a.length ≤ b.length) l) :
    List.Chain' (fun a b => a <+: b) l := by
  induction l with
  | nil => simp
  | cons a t ih =>
    cases t with
    | nil => simp
    | cons b u =>
      rw [List.chain'_cons] at hmono ⊢
      refine ⟨?_, ih (fun x hx => hall x (List.mem_cons_of_mem a hx)) hmono.2⟩
      exact List.prefix_of_prefix_length_le (hall a (by simp)) (hall b (by simp)) hmono.1

/-- Core invariant of the cumulative-text diffing loop: if the assistant
texts of the remaining events extend one another by the prefix order and
prev (of length p) is a prefix of the first of them, then the loop
succeeds and prev followed by the emitted chunks spells out the last
assistant text (or prev itself when no assistant event remains). -/
theorem processEvents_join (es : List StreamEvent) :
    ∀ (st : State) (prev : Chars),
      (∀ e ∈ es, e.error = none ∧ e.message.isSome = true) →
      List.Chain' (fun a b => a <+: b) (prev :: assistantTexts es) →
      ∃ r, processEvents st prev.length es = .ok r ∧
        prev ++ r.2.flatten = (assistantTexts es).getLastD prev := by
  induction es with
  | nil =>
    intro st prev hvalid hchain
    exact ⟨(st, []), rfl, by simp [assistantTexts]⟩
  | cons e rest ih =>
    intro st prev hvalid hchain
    obtain ⟨herr, hmsg⟩ := hvalid e (List.mem_cons_self e rest)
    obtain ⟨m, hm⟩ := Option.isSome_iff_exists.mp hmsg
    have hvrest : ∀ x ∈ rest, x.error = none ∧ x.message.isSome = true :=
      fun x hx => hvalid x (List.mem_cons_of_mem e hx)
    have hstep := stepEvent_ok st prev.length e m herr hm
    by_cases hrole : m.author_role = "assistant"
    · have hat : assistantTexts (e :: rest) = m.parts0 :: assistantTexts rest := by
        simp [assistantTexts, isAssistantEvent, List.filter_cons, hm, hrole, textOf]
      rw [hat] at hchain ⊢
      rw [List.chain'_cons] at hchain
      obtain ⟨t, ht⟩ := hchain.1
      have hdrop : m.parts0.drop prev.length = t := by
        rw [← ht, List.drop_left]
      have hplen : prev.length + (m.parts0.drop prev.length).length = m.parts0.length := by
        rw [hdrop, ← ht]
        simp
      rw [hrole] at hstep
      simp only [String.reduceEq, reduceIte] at hstep
      obtain ⟨r', hr', hjoin⟩ := ih
        { st with
          conversation_id := some e.conversation_id
          chatgpt_prompt :=
            { prompt := some m.parts0
              parent_id := st.user_prompt.message_id
              message_id := m.id } }
        m.parts0 hvrest hchain.2
      refine ⟨(r'.1,
        (if (m.parts0.drop prev.length).isEmpty then [] else [m.parts0.drop prev.length])
          ++ r'.2), ?_, ?_⟩
      · simp only [processEvents, hstep, hplen, hr']
      · rw [List.getLastD_cons]
        have hflat :
            ((if (m.parts0.drop prev.length).isEmpty then []
              else [m.parts0.drop prev.length]) ++ r'.2).flatten =
              m.parts0.drop prev.length ++ r'.2.flatten := by
          by_cases hemp : (m.parts0.drop prev.length).isEmpty
          · simp [hemp, List.isEmpty_iff.mp hemp]
          · simp [hemp]
        rw [hflat, hdrop, ← List.append_assoc, ht, hjoin]
    · have hat : assistantTexts (e :: rest) = assistantTexts rest := by
        simp [assistantTexts, isAssistantEvent, List.filter_cons, hm, hrole]
      rw [hat] at hchain ⊢
      have hchain2 : List.Chain' (fun a b => a <+: b) (prev :: assistantTexts rest) :=
        hchain
      simp only [if_neg hrole] at hstep
      obtain ⟨r', hr', hjoin⟩ := ih
        { st with
          conversation_id := some e.conversation_id
          chatgpt_prompt :=
            { prompt := some m.parts0
              parent_id := st.user_prompt.message_id
              message_id := m.id }
          user_prompt :=
            if m.author_role = "system" then
              { st.user_prompt with parent_id := m.id }
            else st.user_prompt }
        prev hvrest hchain2
      refine ⟨(r'.1, [] ++ r'.2), ?_, ?_⟩
      · simp only [processEvents, hstep, hr']
      · simpa using hjoin

/-- C1: for any reply stream of well-formed events whose assistant-message
texts are prefixes of a final string S with non-decreasing lengths, the
last being S itself, the consumer succeeds and the concatenation of the
chunks it prints equals S exactly — each assistant event contributes the
suffix text[p:] and p advances by the emitted length, so no character is
repeated or skipped, whatever the number of events (legacy.py lines
341-364). -/
theorem c1_delta_reconstruction (es : List StreamEvent) (S : Chars) (st : State)
    (hvalid : ∀ e ∈ es, e.error = none ∧ e.message.isSome = true)
    (hpre : ∀ t ∈ assistantTexts es, t <+: S)
    (hmono : List.Chain' (fun a b => a.length ≤ b.length) (assistantTexts es))
    (hlast : (assistantTexts es).getLast? = some S) :
    ∃ r, print_reply 200 es st = .ok r ∧ r.2.flatten = S := by
  have hchain : List.Chain' (fun a b => a <+: b) (assistantTexts es) :=
    chain_of_prefixes _ S hpre hmono
  have hchain0 : List.Chain' (fun a b => a <+: b) ([] :: assistantTexts es) := by
    rw [List.chain'_cons']
    exact ⟨fun b _ => List.nil_prefix, hchain⟩
  obtain ⟨r, hr, hjoin⟩ := processEvents_join es st [] hvalid hchain0
  refine ⟨r, ?_, ?_⟩
  · simpa [print_reply] using hr
  · rw [List.nil_append] at hjoin
    rw [hjoin, List.getLastD_eq_getLast?, hlast, Option.getD_some]

/-- Witness for C1 on a concrete two-event assistant stream with texts
ab and abcd. -/
theorem c1_delta_reconstruction_witness :
    (∀ e ∈ [evA1, evA2], e.error = none ∧ e.message.isSome = true) ∧
    (∀ t ∈ assistantTexts [evA1, evA2], t <+: ['a', 'b', 'c', 'd']) ∧
    List.Chain' (fun a b => a.length ≤ b.length) (assistantTexts [evA1, evA2]) ∧
    (assistantTexts [evA1, evA2]).getLast? = some ['a', 'b', 'c', 'd'] ∧
    ∃ r, print_reply 200 [evA1, evA2] stFresh = .ok r ∧
      r.2.flatten = ['a', 'b', 'c', 'd'] := by
  have h1 : ∀ e ∈ [evA1, evA2], e.error = none ∧ e.message.isSome = true := by decide
  have hat : assistantTexts [evA1, evA2] = [['a', 'b'], ['a', 'b', 'c', 'd']] := by rfl
  have h2 : ∀ t ∈ assistantTexts [evA1, evA2], t <+: ['a', 'b', 'c', 'd'] := by
    rw [hat]
    intro t ht
    simp only [List.mem_cons, List.not_mem_nil, or_false] at ht
    rcases ht with rfl | rfl
    · exact ⟨['c', 'd'], rfl⟩
    · exact ⟨[], rfl⟩
  have h3 : List.Chain' (fun a b : Chars => a.length ≤ b.length)
      (assistantTexts [evA1, evA2]) := by
    rw [hat]
    rw [List.chain'_cons]
    exact ⟨by simp, List.chain'_singleton _⟩
  have h4 : (assistantTexts [evA1, evA2]).getLast? = some ['a', 'b', 'c', 'd'] := by rfl
  exact ⟨h1, h2, h3, h4, c1_delta_reconstruction [evA1, evA2] _ stFresh h1 h2 h3 h4⟩

end Pandora
